import Mathlib

/-!
Shallow embedding of the lead-staging pipeline of this repository
(`src/boh_db.py` and the merge step of `src/app.py`).

Modelling conventions:
* Python dicts (JSON payloads) are association lists `List (String × Val)`
  with Python semantics: lookup returns the first binding, a dict literal
  with spreads (`\x7b**a, **b\x7d`) updates existing keys in place and appends
  new ones in order.
* UUIDs and timestamps are `Nat`; the nondeterministic `uuid4()` and
  `datetime.utcnow()` results are threaded as explicit parameters.
* The database is in-memory state: the `leads` relation is a `List LeadRow`
  (insertion order = table order), the `campaigns` relation a
  `List CampaignRow`.
* Fallible operations return `Except String` — a `.error` models a raised
  Python exception.  `scalar_one_or_none` raises `MultipleResultsFound`
  when more than one row matches, which the embedding reproduces.
* Storage-layer faults (connection loss, constraint violations at commit)
  are modelled by an oracle `Option FaultPoint` saying at which step of
  `send_lead_to_kitchen`'s `try` block the storage layer raises.
-/

set_option autoImplicit false

namespace BohDb

/-- A JSON-like value, the type of Python dict values in the lead payloads. -/
inductive Val where
  | vnull : Val
  | vstr : String → Val
  | vint : Int → Val
  | vbool : Bool → Val
  | vdict : List (String × Val) → Val

/-- A Python dict over string keys. -/
abbrev PyDict := List (String × Val)

/-- Python truthiness of a value (`if geo:`, `loan_type or ""`). -/
def Val.truthy : Val → Bool
  | .vnull => false
  | .vstr s => s ≠ ""
  | .vint n => n ≠ 0
  | .vbool b => b
  | .vdict d => !d.isEmpty

/-- Python `d.get(k)`: the first binding of `k` (a real dict has unique keys,
so "first" is "the" binding). -/
def dictGet (d : PyDict) (k : String) : Option Val :=
  (d.find? (fun p => p.1 == k)).map Prod.snd

/-- Python `d[k] = v`: update the binding of `k` in place if present,
otherwise append it. -/
def dictSet (d : PyDict) (k : String) (v : Val) : PyDict :=
  if d.any (fun p => p.1 == k) then
    d.map (fun p => if p.1 == k then (k, v) else p)
  else
    d ++ [(k, v)]

/-- A Python dict built by spreading `a` then `b` (`\x7b**a, **b\x7d`): every
binding of `b` is written over `a` in order. -/
def dictMerge (a b : PyDict) : PyDict :=
  b.foldl (fun acc p => dictSet acc p.1 p.2) a

/-- The keys of a dict. -/
def dictKeys (d : PyDict) : List String := d.map Prod.fst

/-- A row of the `leads` relation (`LeadORM`, src/boh_db.py).  Columns not
written by this pipeline and irrelevant to the claims (`estimated_cost`,
`waste_reason`, `waste_details`) are kept with their nullable defaults. -/
structure LeadRow where
  id : Nat
  campaign_id : Nat
  ticket_id : Nat
  brand_id : String
  platform : String
  platform_lead_id : String
  form_data : PyDict
  status : String
  captured_at : Nat
  staged_at : Nat
  delivered_at : Option Nat
  metadata_json : PyDict
  is_waste : Bool
  menu_item : Option String
  quarters_sold : Nat
  quarters_remaining : Nat

/-- A row of the `campaigns` relation (`CampaignORM`, src/boh_db.py). -/
structure CampaignRow where
  id : Nat
  ticket_id : Nat
  brand_id : String
  platform : String

/-- `get_default_campaign` (src/boh_db.py:108-123): select the first
campaign row whose platform is `"other"` (`.limit(1)` + `one_or_none`),
returning its `(id, ticket_id, brand_id)` triple, or `None`. -/
def get_default_campaign (campaigns : List CampaignRow) :
    Option (Nat × Nat × String) :=
  match campaigns.find? (fun c => c.platform == "other") with
  | some c => some (c.id, c.ticket_id, c.brand_id)
  | none => none

/-- `check_duplicate` (src/boh_db.py:126-134): select the ids of all lead
rows with the given `(platform, platform_lead_id)` pair and apply
`scalar_one_or_none`, which returns `None` for zero rows, the value for one
row, and raises `MultipleResultsFound` for more than one. -/
def check_duplicate (leads : List LeadRow) (platform platform_lead_id : String) :
    Except String Bool :=
  match leads.filter
      (fun l => l.platform == platform && l.platform_lead_id == platform_lead_id) with
  | [] => .ok false
  | [_] => .ok true
  | _ => .error "MultipleResultsFound"

/-- The base lead metadata built by `stage_lead_direct`
(src/boh_db.py:172-176): the caller metadata (`metadata or \x7b\x7d`) spread
under the two fixed intake keys. -/
def staged_base (metadata : Option PyDict) : PyDict :=
  dictMerge (metadata.getD [])
    [("intake_source", .vstr "takeout_chatbot"), ("intake_platform", .vstr "takeout")]

/-- The lead metadata built by `stage_lead_direct` (src/boh_db.py:172-178):
the base metadata with `geo` added when truthy (`if geo:`). -/
def staged_metadata (geo : Option Val) (metadata : Option PyDict) : PyDict :=
  match geo with
  | some g =>
    if g.truthy then dictSet (staged_base metadata) "geo" g
    else staged_base metadata
  | none => staged_base metadata

/-- The `LeadORM` row constructed by `stage_lead_direct`
(src/boh_db.py:180-195). -/
def staged_row (lead_id now : Nat) (campaign_id ticket_id : Nat)
    (brand_id menu_item platform_lead_id : String) (form_data : PyDict)
    (geo : Option Val) (metadata : Option PyDict) : LeadRow :=
  { id := lead_id
    campaign_id := campaign_id
    ticket_id := ticket_id
    brand_id := brand_id
    platform := "takeout"
    platform_lead_id := platform_lead_id
    form_data := form_data
    status := "staged"
    captured_at := now
    staged_at := now
    delivered_at := none
    metadata_json := staged_metadata geo metadata
    is_waste := false
    menu_item := some menu_item
    quarters_sold := 0
    quarters_remaining := 4 }

/-- `stage_lead_direct` (src/boh_db.py:137-200): construct the full row,
append it to the `leads` relation (the `INSERT` + `commit`), and return the
new state and the generated id.  `lead_id` and `now` stand for the
in-function `uuid4()` and `datetime.utcnow()` calls. -/
def stage_lead_direct (leads : List LeadRow) (lead_id now : Nat)
    (campaign_id ticket_id : Nat) (brand_id menu_item platform_lead_id : String)
    (form_data : PyDict) (geo : Option Val) (metadata : Option PyDict) :
    List LeadRow × Nat :=
  (leads ++ [staged_row lead_id now campaign_id ticket_id brand_id menu_item
    platform_lead_id form_data geo metadata], lead_id)

/-- The fixed loan-type-to-menu-item mapping table (src/boh_db.py:205-209). -/
def menu_item_mapping : List (String × String) :=
  [("purchase", "dscr_purchase"), ("cashout", "dscr_cashout"), ("refinance", "dscr_refi")]

/-- `map_loan_type_to_menu_item` (src/boh_db.py:203-210):
`mapping.get(loan_type or "", "dscr_refi")`. -/
def map_loan_type_to_menu_item (loan_type : Option String) : String :=
  match menu_item_mapping.find? (fun p => p.1 == loan_type.getD "") with
  | some p => p.2
  | none => "dscr_refi"

/-- Where in `send_lead_to_kitchen`'s `try` block the storage layer raises,
for quantifying over storage-layer behaviours: opening the session/engine,
the campaign select, the duplicate select, or the insert/commit. -/
inductive FaultPoint where
  | atConnect : FaultPoint
  | atResolve : FaultPoint
  | atCheck : FaultPoint
  | atInsert : FaultPoint
deriving DecidableEq

/-- The platform lead id generated by `send_lead_to_kitchen`
(src/boh_db.py:250): `"takeout_" + session_id + "_" + timestamp`. -/
def mk_platform_lead_id (session_id ts : String) : String :=
  "takeout_" ++ session_id ++ "_" ++ ts

/-- `contact = lead_data.get("contact", \x7b\x7d)` followed by attribute access on
it (src/boh_db.py:258-263): a missing key yields the empty dict, a dict
value is used as is, and any non-dict value makes the subsequent
`contact.get` raise `AttributeError`. -/
def getContact (lead_data : PyDict) : Except String PyDict :=
  match dictGet lead_data "contact" with
  | none => .ok []
  | some (.vdict d) => .ok d
  | some _ => .error "AttributeError"

/-- The `form_data` dict built from the contact dict
(src/boh_db.py:259-263): name/email/phone, missing fields coerced to `""`. -/
def build_form_data (contact : PyDict) : PyDict :=
  [("name", (dictGet contact "name").getD (.vstr "")),
   ("email", (dictGet contact "email").getD (.vstr "")),
   ("phone", (dictGet contact "phone").getD (.vstr ""))]

/-- The metadata dict built from the lead payload (src/boh_db.py:266-272);
`dict.get` with a single argument defaults missing keys to `None`. -/
def build_metadata (lead_data : PyDict) (session_id : String) : PyDict :=
  [("budget_min", (dictGet lead_data "budget_min").getD .vnull),
   ("budget_max", (dictGet lead_data "budget_max").getD .vnull),
   ("timeline", (dictGet lead_data "timeline").getD .vnull),
   ("loan_type", (dictGet lead_data "loan_type").getD .vnull),
   ("session_id", .vstr session_id)]

/-- The loan type passed to `map_loan_type_to_menu_item`
(src/boh_db.py:280): `lead_data.get("loan_type")`, a string when the
payload carries one (any non-string value falls through the mapping to the
default exactly as a missing one does). -/
def loan_type_of (lead_data : PyDict) : Option String :=
  match dictGet lead_data "loan_type" with
  | some (.vstr s) => some s
  | _ => none

/-- The body of `send_lead_to_kitchen`'s `try` block (src/boh_db.py:239-288):
resolve the default campaign, generate the platform lead id, run the
duplicate check, assemble form data and metadata, and stage the lead.
`fault` injects a storage-layer exception at the chosen step; a `.error`
result models an exception escaping the `try` block. -/
def send_lead_body (fault : Option FaultPoint) (campaigns : List CampaignRow)
    (leads : List LeadRow) (lead_data : PyDict) (session_id ts : String)
    (fresh_id now : Nat) : Except String (List LeadRow × Option Nat) :=
  if fault = some .atConnect then .error "ConnectionError" else
  if fault = some .atResolve then .error "OperationalError" else
  match get_default_campaign campaigns with
  | none => .ok (leads, none)
  | some (campaign_id, ticket_id, brand_id) =>
    let platform_lead_id := mk_platform_lead_id session_id ts
    if fault = some .atCheck then .error "OperationalError" else
    match check_duplicate leads "takeout" platform_lead_id with
    | .error e => .error e
    | .ok true => .ok (leads, none)
    | .ok false =>
      match getContact lead_data with
      | .error e => .error e
      | .ok contact =>
        if fault = some .atInsert then .error "IntegrityError" else
        let staged := stage_lead_direct leads fresh_id now campaign_id ticket_id
          brand_id (map_loan_type_to_menu_item (loan_type_of lead_data))
          platform_lead_id (build_form_data contact)
          (dictGet lead_data "geo") (some (build_metadata lead_data session_id))
        .ok (staged.1, some staged.2)

/-- `send_lead_to_kitchen` (src/boh_db.py:213-292): return `None` at once
when `BOH_DATABASE_URL` is unset or empty, otherwise run the body and
convert any exception (`except Exception`) into `None` with the `leads`
relation rolled back to its input state.  `boh_url` is the
`BOH_DATABASE_URL` environment variable, `ts` the
`datetime.utcnow().timestamp()` string, `fresh_id`/`now` the `uuid4()` and
`datetime.utcnow()` of the inner `stage_lead_direct` call. -/
def send_lead_to_kitchen (boh_url : Option String) (fault : Option FaultPoint)
    (campaigns : List CampaignRow) (leads : List LeadRow) (lead_data : PyDict)
    (session_id ts : String) (fresh_id now : Nat) : List LeadRow × Option Nat :=
  match boh_url with
  | none => (leads, none)
  | some url =>
    if url = "" then (leads, none)
    else
      match send_lead_body fault campaigns leads lead_data session_id ts fresh_id now with
      | .ok r => r
      | .error _ => (leads, none)

/-- The merge of button-selected structured data with the model's tool
input (src/app.py:323): `lead_data = \x7b**structured_data, **block.input\x7d`. -/
def merge_lead_data (structured_data tool_input : PyDict) : PyDict :=
  dictMerge structured_data tool_input

/-! Lemmas about the Python dict operations. -/

theorem find?_cons_key_true {β : Type} {k : String} (p : String × β)
    (l : List (String × β)) (h : (p.1 == k) = true) :
    (p :: l).find? (fun q => q.1 == k) = some p :=
  List.find?_cons_of_pos l h

theorem find?_cons_key_false {β : Type} {k : String} (p : String × β)
    (l : List (String × β)) (h : (p.1 == k) = false) :
    (p :: l).find? (fun q => q.1 == k) = l.find? (fun q => q.1 == k) :=
  List.find?_cons_of_neg l (by simp [h])

theorem find?_map_update {k : String} {v : Val} (d : PyDict)
    (h : d.any (fun p => p.1 == k) = true) :
    (d.map (fun p => if p.1 == k then (k, v) else p)).find? (fun p => p.1 == k)
      = some (k, v) := by
  induction d with
  | nil => simp at h
  | cons p ds ih =>
    rw [List.map_cons]
    rcases eq_or_ne p.1 k with hp | hp
    · have hif : (if p.1 == k then (k, v) else p) = (k, v) := by simp [hp]
      rw [hif, find?_cons_key_true _ _ (by simp)]
    · have hb : (p.1 == k) = false := beq_eq_false_iff_ne.mpr hp
      have hif : (if p.1 == k then (k, v) else p) = p := by simp [hb]
      simp only [List.any_cons, hb, Bool.false_or] at h
      rw [hif, find?_cons_key_false _ _ hb]
      exact ih h

theorem find?_append_absent {k : String} {v : Val} (d : PyDict)
    (h : d.any (fun p => p.1 == k) = false) :
    (d ++ [(k, v)]).find? (fun p => p.1 == k) = some (k, v) := by
  induction d with
  | nil => rw [List.nil_append, find?_cons_key_true _ _ (by simp)]
  | cons p ds ih =>
    simp only [List.any_cons, Bool.or_eq_false_iff] at h
    rw [List.cons_append, find?_cons_key_false _ _ h.1]
    exact ih h.2

/-- Looking up a key just written returns the written value. -/
theorem dictGet_dictSet_self (d : PyDict) (k : String) (v : Val) :
    dictGet (dictSet d k v) k = some v := by
  unfold dictGet dictSet
  cases h : d.any (fun p => p.1 == k) with
  | true => rw [if_pos rfl, find?_map_update d h]; rfl
  | false => rw [if_neg Bool.false_ne_true, find?_append_absent d h]; rfl

theorem find?_map_update_ne {k k2 : String} {v : Val} (h : k ≠ k2) (d : PyDict) :
    (d.map (fun p => if p.1 == k2 then (k2, v) else p)).find? (fun p => p.1 == k)
      = d.find? (fun p => p.1 == k) := by
  induction d with
  | nil => rfl
  | cons p ds ih =>
    rw [List.map_cons]
    rcases eq_or_ne p.1 k2 with hp | hp
    · have hk2 : (k2 == k) = false := beq_eq_false_iff_ne.mpr (Ne.symm h)
      have hpk : (p.1 == k) = false := by rw [hp]; exact hk2
      have hif : (if p.1 == k2 then (k2, v) else p) = (k2, v) := by simp [hp]
      rw [hif, find?_cons_key_false _ _ hk2, find?_cons_key_false _ _ hpk]
      exact ih
    · have hb : (p.1 == k2) = false := beq_eq_false_iff_ne.mpr hp
      have hif : (if p.1 == k2 then (k2, v) else p) = p := by simp [hb]
      rw [hif]
      cases hpk : (p.1 == k) with
      | true => rw [find?_cons_key_true _ _ hpk, find?_cons_key_true _ _ hpk]
      | false =>
        rw [find?_cons_key_false _ _ hpk, find?_cons_key_false _ _ hpk]
        exact ih

theorem find?_append_ne {k k2 : String} {v : Val} (h : k ≠ k2) (d : PyDict) :
    (d ++ [(k2, v)]).find? (fun p => p.1 == k) = d.find? (fun p => p.1 == k) := by
  induction d with
  | nil =>
    rw [List.nil_append,
      find?_cons_key_false _ _ (beq_eq_false_iff_ne.mpr (Ne.symm h))]
  | cons p ds ih =>
    rw [List.cons_append]
    cases hpk : (p.1 == k) with
    | true => rw [find?_cons_key_true _ _ hpk, find?_cons_key_true _ _ hpk]
    | false =>
      rw [find?_cons_key_false _ _ hpk, find?_cons_key_false _ _ hpk]
      exact ih

/-- Writing one key leaves lookups of any other key unchanged. -/
theorem dictGet_dictSet_ne (d : PyDict) {k k2 : String} (v : Val) (h : k ≠ k2) :
    dictGet (dictSet d k2 v) k = dictGet d k := by
  unfold dictGet dictSet
  cases ha : d.any (fun p => p.1 == k2) with
  | true => rw [if_pos rfl, find?_map_update_ne h d]
  | false => rw [if_neg Bool.false_ne_true, find?_append_ne h d]

/-- A key outside a dict's key set is unbound. -/
theorem dictGet_eq_none_of_not_mem (d : PyDict) (k : String)
    (h : k ∉ dictKeys d) : dictGet d k = none := by
  unfold dictGet
  rw [List.find?_eq_none.mpr]
  · rfl
  · intro p hp hbeq
    exact h (by
      have : p.1 = k := by simpa using hbeq
      exact this ▸ List.mem_map_of_mem Prod.fst hp)

/-- A key unbound in the spread-over dict keeps its old binding through a
merge. -/
theorem dictGet_dictMerge_of_none (a b : PyDict) (k : String)
    (h : dictGet b k = none) : dictGet (dictMerge a b) k = dictGet a k := by
  induction b generalizing a with
  | nil => rfl
  | cons p bs ih =>
    have hcons : dictGet (p :: bs) k = none := h
    unfold dictGet at hcons
    cases hpk : (p.1 == k) with
    | true => rw [find?_cons_key_true _ _ hpk] at hcons; simp at hcons
    | false =>
      rw [find?_cons_key_false _ _ hpk] at hcons
      have hbs : dictGet bs k = none := hcons
      have hkp : k ≠ p.1 := fun he => by simp [he] at hpk
      calc dictGet (dictMerge a (p :: bs)) k
          = dictGet (dictMerge (dictSet a p.1 p.2) bs) k := rfl
        _ = dictGet (dictSet a p.1 p.2) k := ih _ hbs
        _ = dictGet a k := dictGet_dictSet_ne a p.2 hkp

/-- A key bound in the spread-over dict (with duplicate-free keys, as any
real Python dict has) ends up with that binding after a merge. -/
theorem dictGet_dictMerge_of_some (a b : PyDict) (k : String) (v : Val)
    (hnd : (dictKeys b).Nodup) (h : dictGet b k = some v) :
    dictGet (dictMerge a b) k = some v := by
  induction b generalizing a with
  | nil => simp [dictGet, List.find?] at h
  | cons p bs ih =>
    have hnd2 : (dictKeys bs).Nodup := (List.nodup_cons.mp hnd).2
    cases hpk : (p.1 == k) with
    | true =>
      have hke : p.1 = k := by simpa using hpk
      have hv : p.2 = v := by
        unfold dictGet at h
        rw [find?_cons_key_true _ _ hpk] at h
        simpa using h
      have hnotin : k ∉ dictKeys bs := hke ▸ (List.nodup_cons.mp hnd).1
      have hbs : dictGet bs k = none := dictGet_eq_none_of_not_mem bs k hnotin
      calc dictGet (dictMerge a (p :: bs)) k
          = dictGet (dictMerge (dictSet a p.1 p.2) bs) k := rfl
        _ = dictGet (dictSet a p.1 p.2) k := dictGet_dictMerge_of_none _ bs k hbs
        _ = some v := by rw [hke, hv]; exact dictGet_dictSet_self a k v
    | false =>
      have hbs : dictGet bs k = some v := by
        unfold dictGet at h ⊢
        rwa [find?_cons_key_false _ _ hpk] at h
      exact ih _ hnd2 hbs

/-! Characterization lemmas for the pipeline functions. -/

/-- The row predicate used by the duplicate guard. -/
def dupPred (p k : String) : LeadRow → Bool :=
  fun l => l.platform == p && l.platform_lead_id == k

theorem check_duplicate_no_match {leads : List LeadRow} {p k : String}
    (h : leads.filter (dupPred p k) = []) :
    check_duplicate leads p k = .ok false := by
  unfold check_duplicate
  rw [show (fun l => l.platform == p && l.platform_lead_id == k) = dupPred p k from rfl, h]

theorem check_duplicate_one_match {leads : List LeadRow} {p k : String}
    {x : LeadRow} (h : leads.filter (dupPred p k) = [x]) :
    check_duplicate leads p k = .ok true := by
  unfold check_duplicate
  rw [show (fun l => l.platform == p && l.platform_lead_id == k) = dupPred p k from rfl, h]

theorem check_duplicate_multi_match {leads : List LeadRow} {p k : String}
    {x y : LeadRow} {rest : List LeadRow}
    (h : leads.filter (dupPred p k) = x :: y :: rest) :
    check_duplicate leads p k = .error "MultipleResultsFound" := by
  unfold check_duplicate
  rw [show (fun l => l.platform == p && l.platform_lead_id == k) = dupPred p k from rfl, h]

/-- The row staged by a successful `send_lead_to_kitchen` run. -/
def kitchen_row (campaign_id ticket_id : Nat) (brand_id : String)
    (lead_data : PyDict) (contact : PyDict) (session_id ts : String)
    (fresh_id now : Nat) : LeadRow :=
  staged_row fresh_id now campaign_id ticket_id brand_id
    (map_loan_type_to_menu_item (loan_type_of lead_data))
    (mk_platform_lead_id session_id ts) (build_form_data contact)
    (dictGet lead_data "geo") (some (build_metadata lead_data session_id))

theorem send_lead_body_success {campaigns : List CampaignRow}
    {leads : List LeadRow} {lead_data : PyDict} {session_id ts : String}
    (fresh_id now : Nat) {cid tid : Nat} {bid : String} {contact : PyDict}
    (hc : get_default_campaign campaigns = some (cid, tid, bid))
    (hchk : check_duplicate leads "takeout" (mk_platform_lead_id session_id ts)
      = .ok false)
    (hct : getContact lead_data = .ok contact) :
    send_lead_body none campaigns leads lead_data session_id ts fresh_id now
      = .ok (leads ++ [kitchen_row cid tid bid lead_data contact session_id ts
          fresh_id now], some fresh_id) := by
  simp [send_lead_body, hc, hchk, hct, kitchen_row, stage_lead_direct]

theorem send_lead_body_dup {campaigns : List CampaignRow}
    {leads : List LeadRow} {lead_data : PyDict} {session_id ts : String}
    (fresh_id now : Nat) {cid tid : Nat} {bid : String}
    (hc : get_default_campaign campaigns = some (cid, tid, bid))
    (hchk : check_duplicate leads "takeout" (mk_platform_lead_id session_id ts)
      = .ok true) :
    send_lead_body none campaigns leads lead_data session_id ts fresh_id now
      = .ok (leads, none) := by
  simp [send_lead_body, hc, hchk]

/-- Every run of the `try` block either raises, aborts leaving the state
untouched and reporting no id, or stages exactly the kitchen row. -/
theorem send_lead_body_cases (fault : Option FaultPoint)
    (campaigns : List CampaignRow) (leads : List LeadRow) (lead_data : PyDict)
    (session_id ts : String) (fresh_id now : Nat) :
    (∃ e, send_lead_body fault campaigns leads lead_data session_id ts fresh_id now
        = .error e)
    ∨ send_lead_body fault campaigns leads lead_data session_id ts fresh_id now
        = .ok (leads, none)
    ∨ ∃ cid tid bid contact,
        get_default_campaign campaigns = some (cid, tid, bid)
        ∧ getContact lead_data = .ok contact
        ∧ fault = none
        ∧ check_duplicate leads "takeout" (mk_platform_lead_id session_id ts)
            = .ok false
        ∧ send_lead_body fault campaigns leads lead_data session_id ts fresh_id now
            = .ok (leads ++ [kitchen_row cid tid bid lead_data contact session_id ts
                fresh_id now], some fresh_id) := by
  rcases fault with _ | fp
  · rcases hc : get_default_campaign campaigns with _ | ⟨cid, tid, bid⟩
    · refine Or.inr (Or.inl ?_)
      simp [send_lead_body, hc]
    · rcases hchk : check_duplicate leads "takeout" (mk_platform_lead_id session_id ts)
        with e | b
      · refine Or.inl ⟨e, ?_⟩
        simp [send_lead_body, hc, hchk]
      · cases b with
        | true => exact Or.inr (Or.inl (send_lead_body_dup fresh_id now hc hchk))
        | false =>
          rcases hct : getContact lead_data with e | contact
          · refine Or.inl ⟨e, ?_⟩
            simp [send_lead_body, hc, hchk, hct]
          · exact Or.inr (Or.inr ⟨cid, tid, bid, contact, rfl, rfl, rfl, rfl,
              send_lead_body_success fresh_id now hc hchk hct⟩)
  · cases fp with
    | atConnect => exact Or.inl ⟨"ConnectionError", rfl⟩
    | atResolve => exact Or.inl ⟨"OperationalError", by simp [send_lead_body]⟩
    | atCheck =>
      rcases hc : get_default_campaign campaigns with _ | ⟨cid, tid, bid⟩
      · refine Or.inr (Or.inl ?_)
        simp [send_lead_body, hc]
      · exact Or.inl ⟨"OperationalError", by simp [send_lead_body, hc]⟩
    | atInsert =>
      rcases hc : get_default_campaign campaigns with _ | ⟨cid, tid, bid⟩
      · refine Or.inr (Or.inl ?_)
        simp [send_lead_body, hc]
      · rcases hchk : check_duplicate leads "takeout" (mk_platform_lead_id session_id ts)
          with e | b
        · exact Or.inl ⟨e, by simp [send_lead_body, hc, hchk]⟩
        · cases b with
          | true =>
            refine Or.inr (Or.inl ?_)
            simp [send_lead_body, hc, hchk]
          | false =>
            rcases hct : getContact lead_data with e | contact
            · exact Or.inl ⟨e, by simp [send_lead_body, hc, hchk, hct]⟩
            · exact Or.inl ⟨"IntegrityError", by simp [send_lead_body, hc, hchk, hct]⟩

theorem send_of_body_ok {url : String} {fault : Option FaultPoint}
    {campaigns : List CampaignRow} {leads : List LeadRow} {lead_data : PyDict}
    {session_id ts : String} {fresh_id now : Nat} {r : List LeadRow × Option Nat}
    (hu : url ≠ "")
    (h : send_lead_body fault campaigns leads lead_data session_id ts fresh_id now
      = .ok r) :
    send_lead_to_kitchen (some url) fault campaigns leads lead_data session_id ts
      fresh_id now = r := by
  simp [send_lead_to_kitchen, hu, h]

theorem send_of_body_error {url : String} {fault : Option FaultPoint}
    {campaigns : List CampaignRow} {leads : List LeadRow} {lead_data : PyDict}
    {session_id ts : String} {fresh_id now : Nat} {e : String}
    (hu : url ≠ "")
    (h : send_lead_body fault campaigns leads lead_data session_id ts fresh_id now
      = .error e) :
    send_lead_to_kitchen (some url) fault campaigns leads lead_data session_id ts
      fresh_id now = (leads, none) := by
  simp [send_lead_to_kitchen, hu, h]

/-! Claim theorems. -/

theorem map_loan_type_unknown (s : String) (h1 : s ≠ "purchase")
    (h2 : s ≠ "cashout") (h3 : s ≠ "refinance") :
    map_loan_type_to_menu_item (some s) = "dscr_refi" := by
  unfold map_loan_type_to_menu_item menu_item_mapping
  rw [show (some s).getD "" = s from rfl,
    find?_cons_key_false ("purchase", "dscr_purchase")
      [("cashout", "dscr_cashout"), ("refinance", "dscr_refi")]
      (beq_eq_false_iff_ne.mpr (Ne.symm h1)),
    find?_cons_key_false ("cashout", "dscr_cashout")
      [("refinance", "dscr_refi")]
      (beq_eq_false_iff_ne.mpr (Ne.symm h2)),
    find?_cons_key_false ("refinance", "dscr_refi")
      ([] : List (String × String))
      (beq_eq_false_iff_ne.mpr (Ne.symm h3))]
  rfl

/-- C3: `map_loan_type_to_menu_item` is total on string-or-absent loan
types: `"purchase"` maps to the purchase category `"dscr_purchase"`,
`"cashout"` to `"dscr_cashout"`, `"refinance"` to `"dscr_refi"`, and any
other input — absent or unrecognized — to `"dscr_refi"`; the result is
always one of the three category strings and the function never fails
(it is a total Lean function). -/
theorem claim_C3_map_loan_type_total :
    map_loan_type_to_menu_item (some "purchase") = "dscr_purchase"
    ∧ map_loan_type_to_menu_item (some "cashout") = "dscr_cashout"
    ∧ map_loan_type_to_menu_item (some "refinance") = "dscr_refi"
    ∧ map_loan_type_to_menu_item none = "dscr_refi"
    ∧ (∀ s : String, s ≠ "purchase" → s ≠ "cashout" → s ≠ "refinance" →
        map_loan_type_to_menu_item (some s) = "dscr_refi")
    ∧ ∀ lt : Option String,
        map_loan_type_to_menu_item lt = "dscr_purchase"
        ∨ map_loan_type_to_menu_item lt = "dscr_cashout"
        ∨ map_loan_type_to_menu_item lt = "dscr_refi" := by
  refine ⟨rfl, rfl, rfl, rfl, map_loan_type_unknown, ?_⟩
  intro lt
  rcases lt with _ | s
  · exact Or.inr (Or.inr rfl)
  · by_cases h1 : s = "purchase"
    · subst h1; exact Or.inl rfl
    · by_cases h2 : s = "cashout"
      · subst h2; exact Or.inr (Or.inl rfl)
      · by_cases h3 : s = "refinance"
        · subst h3; exact Or.inr (Or.inr rfl)
        · exact Or.inr (Or.inr (map_loan_type_unknown s h1 h2 h3))

/-- C3 witness: the unknown loan type `"garbage"` falls back to the
refinance category. -/
theorem claim_C3_witness :
    map_loan_type_to_menu_item (some "garbage") = "dscr_refi" :=
  claim_C3_map_loan_type_total.2.2.2.2.1 "garbage" (by decide) (by decide)
    (by decide)

/-- C4: the merge of button-prefilled data with the model tool input
(src/app.py:323, a Python dict spread) is keywise model-first: a top-level
key bound in the tool input keeps the model value, a key bound only in the
prefilled data keeps the caller value, and a key absent from both stays
absent (the second conjunct applied to an unbound key).  The tool input is
a Python dict, so its keys are duplicate-free. -/
theorem claim_C4_merge_precedence (structured_data tool_input : PyDict)
    (k : String) (hnd : (dictKeys tool_input).Nodup) :
    (∀ v, dictGet tool_input k = some v →
      dictGet (merge_lead_data structured_data tool_input) k = some v)
    ∧ (dictGet tool_input k = none →
      dictGet (merge_lead_data structured_data tool_input) k
        = dictGet structured_data k) := by
  constructor
  · intro v hv
    exact dictGet_dictMerge_of_some structured_data tool_input k v hnd hv
  · intro hn
    exact dictGet_dictMerge_of_none structured_data tool_input k hn

/-- C4 witness: on the spec's example the model's `loan_type` wins and the
caller's `geo` survives. -/
theorem claim_C4_witness :
    dictGet (merge_lead_data
      [("loan_type", .vstr "purchase"), ("geo", .vstr "TX")]
      [("loan_type", .vstr "cashout"),
       ("contact", .vdict [("name", .vstr "Jane")])]) "loan_type"
      = some (.vstr "cashout")
    ∧ dictGet (merge_lead_data
      [("loan_type", .vstr "purchase"), ("geo", .vstr "TX")]
      [("loan_type", .vstr "cashout"),
       ("contact", .vdict [("name", .vstr "Jane")])]) "geo"
      = some (.vstr "TX") := by
  constructor
  · exact (claim_C4_merge_precedence
      [("loan_type", .vstr "purchase"), ("geo", .vstr "TX")]
      [("loan_type", .vstr "cashout"),
       ("contact", .vdict [("name", .vstr "Jane")])] "loan_type"
      (by decide)).1 (.vstr "cashout") rfl
  · exact ((claim_C4_merge_precedence
      [("loan_type", .vstr "purchase"), ("geo", .vstr "TX")]
      [("loan_type", .vstr "cashout"),
       ("contact", .vdict [("name", .vstr "Jane")])] "geo"
      (by decide)).2 rfl).trans rfl

/-- C6: every call of `stage_lead_direct` inserts exactly one row whose id
is the freshly generated `uuid4` value (modelled by the `lead_id`
parameter; the ORM column is not caller-settable) and is also the returned
value, with status `"staged"`, `captured_at` and `staged_at` both the
staging instant `now`, `delivered_at` null, `is_waste` false,
`quarters_sold` 0 and `quarters_remaining` 4. -/
theorem claim_C6_staged_row_shape (leads : List LeadRow)
    (lead_id now cid tid : Nat) (bid mi plid : String) (fd : PyDict)
    (geo : Option Val) (md : Option PyDict) :
    ∃ row : LeadRow,
      stage_lead_direct leads lead_id now cid tid bid mi plid fd geo md
        = (leads ++ [row], row.id)
      ∧ row.id = lead_id
      ∧ row.status = "staged"
      ∧ row.captured_at = now
      ∧ row.staged_at = now
      ∧ row.captured_at = row.staged_at
      ∧ row.delivered_at = none
      ∧ row.is_waste = false
      ∧ row.quarters_sold = 0
      ∧ row.quarters_remaining = 4 :=
  ⟨staged_row lead_id now cid tid bid mi plid fd geo md,
    rfl, rfl, rfl, rfl, rfl, rfl, rfl, rfl, rfl, rfl⟩

/-- C8: with no `BOH_DATABASE_URL` configured, `send_lead_to_kitchen`
returns the not-sent outcome `none` without raising and without touching
the `leads` relation, whatever the storage fault oracle and inputs; a
repeated call in the resulting state returns the identical outcome. -/
theorem claim_C8_unconfigured_degraded (fault : Option FaultPoint)
    (campaigns : List CampaignRow) (leads : List LeadRow) (lead_data : PyDict)
    (session_id ts : String) (fresh_id now : Nat) :
    send_lead_to_kitchen none fault campaigns leads lead_data session_id ts
      fresh_id now = (leads, none)
    ∧ send_lead_to_kitchen none fault campaigns
        (send_lead_to_kitchen none fault campaigns leads lead_data session_id ts
          fresh_id now).1 lead_data session_id ts fresh_id now
      = ((send_lead_to_kitchen none fault campaigns leads lead_data session_id ts
          fresh_id now).1, none) :=
  ⟨rfl, rfl⟩

/-- C1 (counterexample): with two rows carrying the same
`(platform, platform_lead_id)` pair — a state nothing in the minimal ORM
schema rules out, since `platform_lead_id` carries no unique constraint —
`check_duplicate` does not return true: `scalar_one_or_none` raises
`MultipleResultsFound`, refuting "returns true if and only if at least one
row matches, and it never raises". -/
theorem claim_C1_counterexample :
    check_duplicate
      [staged_row 1 0 2 3 "b" "m" "x" [] none none,
       staged_row 4 0 2 3 "b" "m" "x" [] none none] "takeout" "x"
      = .error "MultipleResultsFound"
    ∧ check_duplicate
      [staged_row 1 0 2 3 "b" "m" "x" [] none none,
       staged_row 4 0 2 3 "b" "m" "x" [] none none] "takeout" "x"
      ≠ .ok true :=
  ⟨rfl, fun h => Except.noConfusion
    (show (Except.error "MultipleResultsFound" : Except String Bool)
      = Except.ok true from h)⟩

/-- C1 (amended): when at most one row carries the pair, `check_duplicate`
returns without raising, and returns true exactly when a matching row
exists; whenever it reports a duplicate, `send_lead_to_kitchen` aborts
before any insert (state unchanged, no id); hence staging twice with the
same generated pair leaves exactly one new row and the second call returns
no identifier.  With two or more matching rows the guard raises instead
(caught upstream, reported as the `none` outcome). -/
theorem claim_C1_amended :
    (∀ (leads : List LeadRow) (p k : String),
      (leads.filter (dupPred p k)).length ≤ 1 →
        (check_duplicate leads p k = .ok true
          ↔ ∃ l ∈ leads, l.platform = p ∧ l.platform_lead_id = k)
        ∧ ∃ b, check_duplicate leads p k = .ok b)
    ∧ (∀ (url : String) (fault : Option FaultPoint)
        (campaigns : List CampaignRow) (leads : List LeadRow)
        (lead_data : PyDict) (sid ts : String) (f n : Nat),
        url ≠ "" →
        check_duplicate leads "takeout" (mk_platform_lead_id sid ts) = .ok true →
        send_lead_to_kitchen (some url) fault campaigns leads lead_data sid ts f n
          = (leads, none))
    ∧ (∀ (url : String) (campaigns : List CampaignRow) (leads : List LeadRow)
        (lead_data : PyDict) (sid ts : String) (f n f2 n2 cid tid : Nat)
        (bid : String) (contact : PyDict),
        url ≠ "" →
        get_default_campaign campaigns = some (cid, tid, bid) →
        getContact lead_data = .ok contact →
        leads.filter (dupPred "takeout" (mk_platform_lead_id sid ts)) = [] →
        ∃ row : LeadRow,
          send_lead_to_kitchen (some url) none campaigns leads lead_data sid ts f n
            = (leads ++ [row], some f)
          ∧ send_lead_to_kitchen (some url) none campaigns (leads ++ [row])
              lead_data sid ts f2 n2 = (leads ++ [row], none)) := by
  refine ⟨?_, ?_, ?_⟩
  · intro leads p k h
    rcases hfil : leads.filter (dupPred p k) with _ | ⟨x, _ | ⟨y, rest⟩⟩
    · have hck := check_duplicate_no_match hfil
      refine ⟨?_, false, hck⟩
      rw [hck]
      constructor
      · intro hcontra; cases hcontra
      · rintro ⟨l, hl, h1, h2⟩
        have : dupPred p k l = true := by simp [dupPred, h1, h2]
        have := List.filter_eq_nil_iff.mp hfil l hl
        simp_all
    · have hck := check_duplicate_one_match hfil
      refine ⟨?_, true, hck⟩
      rw [hck]
      constructor
      · intro _
        have hx : x ∈ leads.filter (dupPred p k) := by rw [hfil]; exact List.mem_cons_self x []
        rcases List.mem_filter.mp hx with ⟨hmem, hpred⟩
        have hp1 : x.platform = p := by
          have := (Bool.and_eq_true _ _).mp hpred
          exact beq_iff_eq.mp this.1
        have hp2 : x.platform_lead_id = k := by
          have := (Bool.and_eq_true _ _).mp hpred
          exact beq_iff_eq.mp this.2
        exact ⟨x, hmem, hp1, hp2⟩
      · intro _; rfl
    · rw [hfil] at h
      simp at h
  · intro url fault campaigns leads lead_data sid ts f n hu hdup
    rcases send_lead_body_cases fault campaigns leads lead_data sid ts f n with
      ⟨e, he⟩ | hok | ⟨cid, tid, bid, contact, hc, hct, hf, hchk, hsucc⟩
    · exact send_of_body_error hu he
    · exact send_of_body_ok hu hok
    · have := hchk.symm.trans hdup
      simp at this
  · intro url campaigns leads lead_data sid ts f n f2 n2 cid tid bid contact
      hu hc hct hfil
    have hchk : check_duplicate leads "takeout" (mk_platform_lead_id sid ts)
        = .ok false := check_duplicate_no_match hfil
    have h1 := send_of_body_ok hu (send_lead_body_success f n hc hchk hct)
    refine ⟨kitchen_row cid tid bid lead_data contact sid ts f n, h1, ?_⟩
    have hrow : dupPred "takeout" (mk_platform_lead_id sid ts)
        (kitchen_row cid tid bid lead_data contact sid ts f n) = true := by
      simp [dupPred, kitchen_row, staged_row]
    have hfil2 : (leads ++ [kitchen_row cid tid bid lead_data contact sid ts f n]).filter
        (dupPred "takeout" (mk_platform_lead_id sid ts))
        = [kitchen_row cid tid bid lead_data contact sid ts f n] := by
      rw [List.filter_append, hfil, List.nil_append]
      simp [List.filter, hrow]
    exact send_of_body_ok hu
      (send_lead_body_dup f2 n2 hc (check_duplicate_one_match hfil2))

/-- C1 witness: against a state already holding the generated pair, a
configured `send_lead_to_kitchen` aborts with no insert and no id. -/
theorem claim_C1_witness :
    send_lead_to_kitchen (some "postgresql") none
      [CampaignRow.mk 7 8 "brand" "other"]
      [staged_row 1 0 7 8 "brand" "dscr_refi" (mk_platform_lead_id "sess" "111")
        [] none none]
      [] "sess" "111" 2 5
      = ([staged_row 1 0 7 8 "brand" "dscr_refi" (mk_platform_lead_id "sess" "111")
          [] none none], none) :=
  claim_C1_amended.2.1 "postgresql" none
    [CampaignRow.mk 7 8 "brand" "other"]
    [staged_row 1 0 7 8 "brand" "dscr_refi" (mk_platform_lead_id "sess" "111")
      [] none none]
    [] "sess" "111" 2 5 (by decide) rfl

/-- C2: when no campaign row has platform `"other"` (in particular with an
empty campaigns relation), `get_default_campaign` returns the NotFound
outcome `None` and a configured `send_lead_to_kitchen` returns the
no-route outcome `none` for every payload without inserting any row. -/
theorem claim_C2_no_route (campaigns : List CampaignRow)
    (hno : ∀ c ∈ campaigns, c.platform ≠ "other") :
    get_default_campaign campaigns = none
    ∧ ∀ (url : String) (fault : Option FaultPoint) (leads : List LeadRow)
        (lead_data : PyDict) (sid ts : String) (f n : Nat),
        url ≠ "" →
        send_lead_to_kitchen (some url) fault campaigns leads lead_data sid ts f n
          = (leads, none) := by
  have hgd : get_default_campaign campaigns = none := by
    unfold get_default_campaign
    rw [List.find?_eq_none.mpr (fun c hc => by simp [hno c hc])]
  refine ⟨hgd, ?_⟩
  intro url fault leads lead_data sid ts f n hu
  rcases send_lead_body_cases fault campaigns leads lead_data sid ts f n with
    ⟨e, he⟩ | hok | ⟨cid, tid, bid, contact, hc, _, _, _, _⟩
  · exact send_of_body_error hu he
  · exact send_of_body_ok hu hok
  · rw [hgd] at hc; cases hc

/-- C2 witness: with an empty campaigns relation, resolution reports
NotFound and a configured staging call returns no-route with no insert. -/
theorem claim_C2_witness :
    get_default_campaign [] = none
    ∧ send_lead_to_kitchen (some "postgresql") none [] [] [] "sess" "1" 3 4
      = ([], none) :=
  ⟨(claim_C2_no_route [] (by simp)).1,
   (claim_C2_no_route [] (by simp)).2 "postgresql" none [] [] "sess" "1" 3 4
     (by decide)⟩

/-- C5 (counterexample): the merge of src/app.py:323 is a shallow dict
spread, so a model `contact` that omits `phone` replaces the caller's
contact wholesale; running the pipeline on the merged payload stages a row
whose form-data phone is the empty string, not the caller's phone —
refuting that the canonical lead retains the caller's phone value. -/
theorem claim_C5_counterexample :
    dictGet (merge_lead_data
        [("contact", Val.vdict [("name", .vstr "Ann"),
            ("phone", .vstr "555-0100")]), ("geo", .vstr "TX")]
        [("contact", Val.vdict [("name", .vstr "Jane")])]) "contact"
      = some (.vdict [("name", .vstr "Jane")])
    ∧ ((send_lead_to_kitchen (some "db") none [CampaignRow.mk 7 8 "b" "other"] []
        (merge_lead_data
          [("contact", Val.vdict [("name", .vstr "Ann"),
              ("phone", .vstr "555-0100")]), ("geo", .vstr "TX")]
          [("contact", Val.vdict [("name", .vstr "Jane")])])
        "sess" "1" 2 0).1.map (fun r => dictGet r.form_data "phone"))
      = [some (.vstr "")]
    ∧ Val.vstr "" ≠ Val.vstr "555-0100" :=
  ⟨rfl, rfl, fun h =>
    (by decide : ("" : String) ≠ "555-0100") (Val.vstr.inj h)⟩

/-- C5 (amended): the merge is a shallow overlay: a `contact` object in
the model tool input replaces the caller's contact wholesale, so a model
contact omitting `phone` (or `name`, or `email`) yields a form-data field
coerced to the empty string rather than the caller's value; the
empty-string coercion of the output contract holds. -/
theorem claim_C5_amended (structured_data tool_input cm : PyDict)
    (hnd : (dictKeys tool_input).Nodup)
    (hc : dictGet tool_input "contact" = some (.vdict cm)) :
    dictGet (merge_lead_data structured_data tool_input) "contact"
      = some (.vdict cm)
    ∧ (dictGet cm "phone" = none →
        dictGet (build_form_data cm) "phone" = some (.vstr ""))
    ∧ (dictGet cm "name" = none →
        dictGet (build_form_data cm) "name" = some (.vstr ""))
    ∧ (dictGet cm "email" = none →
        dictGet (build_form_data cm) "email" = some (.vstr "")) := by
  refine ⟨dictGet_dictMerge_of_some structured_data tool_input "contact" _ hnd hc,
    ?_, ?_, ?_⟩ <;> intro h
  · calc dictGet (build_form_data cm) "phone"
        = some ((dictGet cm "phone").getD (.vstr "")) := rfl
      _ = some (.vstr "") := by rw [h]; rfl
  · calc dictGet (build_form_data cm) "name"
        = some ((dictGet cm "name").getD (.vstr "")) := rfl
      _ = some (.vstr "") := by rw [h]; rfl
  · calc dictGet (build_form_data cm) "email"
        = some ((dictGet cm "email").getD (.vstr "")) := rfl
      _ = some (.vstr "") := by rw [h]; rfl

/-- C5 witness: a model contact without a phone replaces the caller's
contact and the form-data phone is coerced to the empty string. -/
theorem claim_C5_witness :
    dictGet (merge_lead_data
        [("contact", Val.vdict [("name", .vstr "Ann"),
            ("phone", .vstr "555-0100")])]
        [("contact", Val.vdict [("name", .vstr "Jane")])]) "contact"
      = some (.vdict [("name", .vstr "Jane")])
    ∧ dictGet (build_form_data [("name", Val.vstr "Jane")]) "phone"
      = some (.vstr "") :=
  ⟨(claim_C5_amended
      [("contact", Val.vdict [("name", .vstr "Ann"),
          ("phone", .vstr "555-0100")])]
      [("contact", Val.vdict [("name", .vstr "Jane")])]
      [("name", Val.vstr "Jane")] (by decide) rfl).1,
   (claim_C5_amended
      [("contact", Val.vdict [("name", .vstr "Ann"),
          ("phone", .vstr "555-0100")])]
      [("contact", Val.vdict [("name", .vstr "Jane")])]
      [("name", Val.vstr "Jane")] (by decide) rfl).2.1 rfl⟩

/-- C7: whatever the configuration, the storage fault oracle and the
payload, `send_lead_to_kitchen` returns a definite outcome — a staged row
with its id, or `none` with the `leads` relation unchanged — and never
propagates an exception to the conversational caller. -/
theorem claim_C7_no_escape (boh_url : Option String) (fault : Option FaultPoint)
    (campaigns : List CampaignRow) (leads : List LeadRow) (lead_data : PyDict)
    (session_id ts : String) (fresh_id now : Nat) :
    (∃ row : LeadRow,
      send_lead_to_kitchen boh_url fault campaigns leads lead_data session_id ts
        fresh_id now = (leads ++ [row], some fresh_id))
    ∨ send_lead_to_kitchen boh_url fault campaigns leads lead_data session_id ts
        fresh_id now = (leads, none) := by
  rcases boh_url with _ | url
  · exact Or.inr rfl
  · by_cases hu : url = ""
    · subst hu
      exact Or.inr (by simp [send_lead_to_kitchen])
    · rcases send_lead_body_cases fault campaigns leads lead_data session_id ts
        fresh_id now with ⟨e, he⟩ | hok | ⟨cid, tid, bid, contact, _, _, _, _, hsucc⟩
      · exact Or.inr (send_of_body_error hu he)
      · exact Or.inr (send_of_body_ok hu hok)
      · exact Or.inl ⟨kitchen_row cid tid bid lead_data contact session_id ts
          fresh_id now, send_of_body_ok hu hsucc⟩

/-- C9 (counterexample): three concrete runs hitting the NoRoute,
Duplicate and StorageFailure conditions all report the identical outcome
`none`: the value returned to the caller does not tell the failure kinds
apart (they differ only in logs). -/
theorem claim_C9_counterexample :
    (send_lead_to_kitchen (some "db") none [] [] [] "s" "1" 9 0).2 = none
    ∧ (send_lead_to_kitchen (some "db") none [CampaignRow.mk 7 8 "b" "other"]
        [staged_row 1 0 7 8 "b" "dscr_refi" (mk_platform_lead_id "s" "1")
          [] none none]
        [] "s" "1" 9 0).2 = none
    ∧ (send_lead_to_kitchen (some "db") (some .atInsert)
        [CampaignRow.mk 7 8 "b" "other"] [] [] "s" "1" 9 0).2 = none :=
  ⟨rfl, rfl, rfl⟩

/-- C9 (amended): the boundary distinguishes success (`some id`) from
non-success, but the Unconfigured, NoRoute, Duplicate and StorageFailure
kinds are all reported to the caller as the single outcome `none` with the
relation unchanged; they are told apart only in the internal logs. -/
theorem claim_C9_amended (url : String) (fault : Option FaultPoint)
    (campaigns : List CampaignRow) (leads : List LeadRow) (lead_data : PyDict)
    (sid ts : String) (f n : Nat) :
    send_lead_to_kitchen none fault campaigns leads lead_data sid ts f n
      = (leads, none)
    ∧ (url ≠ "" → get_default_campaign campaigns = none →
        send_lead_to_kitchen (some url) none campaigns leads lead_data sid ts f n
          = (leads, none))
    ∧ (url ≠ "" →
        check_duplicate leads "takeout" (mk_platform_lead_id sid ts) = .ok true →
        send_lead_to_kitchen (some url) none campaigns leads lead_data sid ts f n
          = (leads, none))
    ∧ (url ≠ "" → ∀ fp : FaultPoint,
        send_lead_to_kitchen (some url) (some fp) campaigns leads lead_data sid ts
          f n = (leads, none)) := by
  refine ⟨rfl, ?_, ?_, ?_⟩
  · intro hu hgd
    rcases send_lead_body_cases none campaigns leads lead_data sid ts f n with
      ⟨e, he⟩ | hok | ⟨cid, tid, bid, contact, hc, _, _, _, _⟩
    · exact send_of_body_error hu he
    · exact send_of_body_ok hu hok
    · rw [hgd] at hc; cases hc
  · intro hu hdup
    rcases send_lead_body_cases none campaigns leads lead_data sid ts f n with
      ⟨e, he⟩ | hok | ⟨cid, tid, bid, contact, _, _, _, hchk, _⟩
    · exact send_of_body_error hu he
    · exact send_of_body_ok hu hok
    · have := hchk.symm.trans hdup
      simp at this
  · intro hu fp
    rcases send_lead_body_cases (some fp) campaigns leads lead_data sid ts f n with
      ⟨e, he⟩ | hok | ⟨cid, tid, bid, contact, _, _, hf, _, _⟩
    · exact send_of_body_error hu he
    · exact send_of_body_ok hu hok
    · cases hf

/-- C9 witness: a configured run with no default campaign reports the
shared non-success outcome. -/
theorem claim_C9_witness :
    send_lead_to_kitchen (some "db") none [] [] [] "s" "1" 9 0 = ([], none) :=
  (claim_C9_amended "db" none [] [] [] "s" "1" 9 0).2.1 (by decide) rfl

/-- C10 (counterexample): a `stage_lead_direct` call with `geo = None` but
caller metadata already carrying a `"geo"` key stages a row whose metadata
still contains `"geo"` — refuting that a None/empty geo always leaves the
metadata without a `"geo"` key. -/
theorem claim_C10_counterexample :
    stage_lead_direct [] 1 0 2 3 "brand" "dscr_refi" "plid" [] none
      (some [("geo", .vstr "CA")])
      = ([staged_row 1 0 2 3 "brand" "dscr_refi" "plid" [] none
          (some [("geo", .vstr "CA")])], 1)
    ∧ dictGet (staged_row 1 0 2 3 "brand" "dscr_refi" "plid" [] none
        (some [("geo", .vstr "CA")])).metadata_json "geo"
      = some (.vstr "CA") :=
  ⟨rfl, rfl⟩

/-- C10 (amended): every row inserted by `stage_lead_direct` has platform
`"takeout"` and metadata carrying `intake_source = "takeout_chatbot"` and
`intake_platform = "takeout"` (overriding caller keys of those names); a
truthy (non-empty) geo argument is written under `"geo"`; with a
None/falsy geo the metadata has a `"geo"` key only if the caller-supplied
metadata already had one. -/
theorem claim_C10_amended (leads : List LeadRow) (lead_id now cid tid : Nat)
    (bid mi plid : String) (fd : PyDict) (geo : Option Val)
    (md : Option PyDict) :
    stage_lead_direct leads lead_id now cid tid bid mi plid fd geo md
      = (leads ++ [staged_row lead_id now cid tid bid mi plid fd geo md], lead_id)
    ∧ (staged_row lead_id now cid tid bid mi plid fd geo md).platform = "takeout"
    ∧ dictGet (staged_row lead_id now cid tid bid mi plid fd geo md).metadata_json
        "intake_source" = some (.vstr "takeout_chatbot")
    ∧ dictGet (staged_row lead_id now cid tid bid mi plid fd geo md).metadata_json
        "intake_platform" = some (.vstr "takeout")
    ∧ (∀ g, geo = some g → g.truthy = true →
        dictGet (staged_row lead_id now cid tid bid mi plid fd geo md).metadata_json
          "geo" = some g)
    ∧ ((∀ g, geo = some g → g.truthy = false) →
        dictGet (md.getD []) "geo" = none →
        dictGet (staged_row lead_id now cid tid bid mi plid fd geo md).metadata_json
          "geo" = none) := by
  have hnd : (dictKeys [("intake_source", Val.vstr "takeout_chatbot"),
      ("intake_platform", Val.vstr "takeout")]).Nodup := by decide
  have hsrc : dictGet (staged_base md) "intake_source"
      = some (.vstr "takeout_chatbot") :=
    dictGet_dictMerge_of_some (md.getD [])
      [("intake_source", Val.vstr "takeout_chatbot"),
       ("intake_platform", Val.vstr "takeout")] "intake_source"
      (Val.vstr "takeout_chatbot") hnd rfl
  have hplat : dictGet (staged_base md) "intake_platform"
      = some (.vstr "takeout") :=
    dictGet_dictMerge_of_some (md.getD [])
      [("intake_source", Val.vstr "takeout_chatbot"),
       ("intake_platform", Val.vstr "takeout")] "intake_platform"
      (Val.vstr "takeout") hnd rfl
  have hbgeo : dictGet (staged_base md) "geo" = dictGet (md.getD []) "geo" :=
    dictGet_dictMerge_of_none (md.getD [])
      [("intake_source", Val.vstr "takeout_chatbot"),
       ("intake_platform", Val.vstr "takeout")] "geo" rfl
  refine ⟨rfl, rfl, ?_, ?_, ?_, ?_⟩
  · rcases geo with _ | g
    · exact hsrc
    · show dictGet (if g.truthy then dictSet (staged_base md) "geo" g
        else staged_base md) "intake_source" = _
      cases hg : g.truthy with
      | false => rw [if_neg Bool.false_ne_true]; exact hsrc
      | true =>
        rw [if_pos rfl, dictGet_dictSet_ne (staged_base md) g (by decide)]
        exact hsrc
  · rcases geo with _ | g
    · exact hplat
    · show dictGet (if g.truthy then dictSet (staged_base md) "geo" g
        else staged_base md) "intake_platform" = _
      cases hg : g.truthy with
      | false => rw [if_neg Bool.false_ne_true]; exact hplat
      | true =>
        rw [if_pos rfl, dictGet_dictSet_ne (staged_base md) g (by decide)]
        exact hplat
  · rintro g rfl htr
    show dictGet (if g.truthy then dictSet (staged_base md) "geo" g
      else staged_base md) "geo" = some g
    rw [if_pos htr]
    exact dictGet_dictSet_self (staged_base md) "geo" g
  · intro hfal hmd
    rcases geo with _ | g
    · exact hbgeo.trans hmd
    · show dictGet (if g.truthy then dictSet (staged_base md) "geo" g
        else staged_base md) "geo" = none
      rw [if_neg (by simp [hfal g rfl])]
      exact hbgeo.trans hmd

/-- C10 witness: a truthy geo argument lands in the row metadata under
`"geo"`. -/
theorem claim_C10_witness :
    dictGet (staged_row 1 0 2 3 "b" "m" "p" [] (some (.vstr "TX"))
      none).metadata_json "geo" = some (.vstr "TX") :=
  (claim_C10_amended [] 1 0 2 3 "b" "m" "p" [] (some (.vstr "TX"))
    none).2.2.2.2.1 (.vstr "TX") rfl (by decide)

end BohDb
